import Mathlib

/-!
Verification of the scan engine of the test-palette repository.

The development shallowly embeds the two scan surfaces of the source
(`TestRunner.tsx`, the HTTP endpoint tester, and `PortScanner.tsx`, the
port scanner) as executable Lean definitions and proves properties of the
run loop, the classifiers, the worklist builder, session restore and the
persisted result log.

Modelling conventions:
* JavaScript numbers appearing in progress computations and in the
  simulated random draws of the port prober are modelled as rationals.
* JavaScript numbers produced by `Number(...)` inside the port-range
  worklist builder are modelled as `JsNum`: either NaN, an infinity, or a
  decimal rational represented by an integer mantissa scaled by a power
  of ten, which keeps every computation kernel-reducible.
* Strings are manipulated through their character lists with structural
  recursion so that all string functions evaluate by `decide`.
* A JavaScript function that can throw is modelled with `Option`, `none`
  standing for the thrown exception.
-/

namespace TestPalette

/-! ## Character-list string utilities -/

/-- Prefix test on character lists, `needle.isPrefixOf hay` in executable form. -/
def isPrefixList : List Char → List Char → Bool
  | [], _ => true
  | _ :: _, [] => false
  | c :: cs, d :: ds => c = d && isPrefixList cs ds

/-- Substring test on character lists, modelling JavaScript `hay.includes(needle)`. -/
def containsSub (hay needle : List Char) : Bool :=
  match hay with
  | [] => needle.isEmpty
  | _ :: t => isPrefixList needle hay || containsSub t needle

/-- Model of JavaScript `hay.includes(needle)` on strings. -/
def strContains (hay needle : String) : Bool :=
  containsSub hay.data needle.data

/-- Model of JavaScript `s.startsWith(pre)`. -/
def strStartsWith (s pre : String) : Bool :=
  isPrefixList pre.data s.data

/-- Split a character list on a separator character, modelling
JavaScript `String.prototype.split` with a single-character separator. -/
def splitOnChar (sep : Char) : List Char → List (List Char)
  | [] => [[]]
  | c :: cs =>
    let rest := splitOnChar sep cs
    if c = sep then [] :: rest
    else match rest with
      | [] => [[c]]
      | g :: gs => (c :: g) :: gs

/-- JavaScript whitespace characters relevant to `String.prototype.trim`. -/
def isJsWhitespace (c : Char) : Bool :=
  c = ' ' || c = '\t' || c = '\n' || c = '\r'

/-- Model of JavaScript `s.trim()` on character lists. -/
def trimChars (cs : List Char) : List Char :=
  ((cs.dropWhile isJsWhitespace).reverse.dropWhile isJsWhitespace).reverse

/-! ## Data model (`TestRunner.tsx` interfaces) -/

/-- Scan-surface state; source type `TestState` of `TestRunner.tsx` and the
identical `ScanState` of `PortScanner.tsx`. -/
inductive TestState
  | idle
  | running
  | paused
  | stopped
deriving DecidableEq

/-- Verdict of one HTTP endpoint test; source union `'pass' | 'fail' | 'error'`. -/
inductive TestStatus
  | pass
  | fail
  | error
deriving DecidableEq

/-- Source interface `Project` of `ProjectManager.tsx`, restricted to the
fields the scan engine reads. -/
structure Project where
  id : String
  name : String
  ipAddress : Option String
deriving DecidableEq

/-- Source interface `Endpoint` of `TestRunner.tsx`, restricted to the
fields the classifier and worklist builder read. -/
structure Endpoint where
  id : String
  name : String
  url : String
  method : String
  projectId : String
  expectedStatusCode : Option Nat
deriving DecidableEq

/-- Source interface `TestConfig` of `TestRunner.tsx`. -/
structure TestConfig where
  projectId : String
  expectedContent : String
  checkContent : Bool
deriving DecidableEq

/-- Source interface `TestResult` of `TestRunner.tsx`, restricted to the
fields the claims mention. -/
structure TestResult where
  id : String
  endpointName : String
  url : String
  method : String
  status : TestStatus
  vulnerabilities : List String
  statusCode : Nat
  projectId : String
deriving DecidableEq

/-- A resolved HTTP response as the classifier of `runSingleTest` sees it:
the status code, presence of the four monitored security headers, and the
response text. -/
structure HttpResponse where
  status : Nat
  hasXContentTypeOptions : Bool
  hasXFrameOptions : Bool
  hasXXssProtection : Bool
  hasStrictTransportSecurity : Bool
  body : String
deriving DecidableEq

/-- Raw outcome of the HTTP probe in `runSingleTest`: either a resolved
response (any status code), or a connection failure carrying a message. -/
inductive RawHttpOutcome
  | success (resp : HttpResponse)
  | connError (msg : String)
deriving DecidableEq

/-! ## HTTP classifier (`runSingleTest`, TestRunner.tsx lines 253-301) -/

/-- Classification part of `runSingleTest` on a resolved response: the
status/content checks that can force `fail`, followed by the advisory
header, server-error and SQL-signature findings.  Returns the verdict and
the accumulated `vulnerabilities` list, in source order.

The status check mirrors the JavaScript truthiness guard
`endpoint.expectedStatusCode && response.status !== endpoint.expectedStatusCode`:
an absent or zero expected status disables the check. -/
def runSingleTestClassify (ep : Endpoint) (cfg : TestConfig) (resp : HttpResponse) :
    TestStatus × List String :=
  let sv1 : TestStatus × List String :=
    match ep.expectedStatusCode with
    | some e =>
      if e ≠ 0 && resp.status ≠ e then
        (TestStatus.fail,
          ["Expected status " ++ toString e ++ ", got " ++ toString resp.status])
      else (TestStatus.pass, [])
    | none => (TestStatus.pass, [])
  let sv2 : TestStatus × List String :=
    if cfg.checkContent && cfg.expectedContent ≠ "" &&
        !(strContains resp.body cfg.expectedContent) then
      (TestStatus.fail,
        sv1.2 ++ ["Expected content \"" ++ cfg.expectedContent ++ "\" not found in response"])
    else sv1
  let v3 := sv2.2 ++
    (if !resp.hasXContentTypeOptions then ["Missing X-Content-Type-Options header"] else [])
  let v4 := v3 ++
    (if !resp.hasXFrameOptions then ["Missing X-Frame-Options header"] else [])
  let v5 := v4 ++
    (if !resp.hasXXssProtection then ["Missing X-XSS-Protection header"] else [])
  let v6 := v5 ++
    (if !resp.hasStrictTransportSecurity && strStartsWith ep.url "https:" then
      ["Missing Strict-Transport-Security header"] else [])
  let v7 := v6 ++
    (if 500 ≤ resp.status then ["Server Error - Potential Information Disclosure"] else [])
  let v8 := v7 ++
    (if strContains resp.body "mysql_" || strContains resp.body "ORA-" ||
        strContains resp.body "SQLException" then
      ["Potential SQL Error Information Disclosure"] else [])
  (sv2.1, v8)

/-- Full `runSingleTest` verdict on a raw outcome: a connection failure is
downgraded to an `error` result with a single finding. -/
def runSingleTestOutcome (ep : Endpoint) (cfg : TestConfig) :
    RawHttpOutcome → TestStatus × List String
  | .success resp => runSingleTestClassify ep cfg resp
  | .connError msg => (TestStatus.error, ["Connection Error: " ++ msg])

/-! ## The run loop shared by both surfaces
(`runAllTests`, TestRunner.tsx lines 321-391, and `startScan`,
PortScanner.tsx lines 243-305; both surfaces instantiate the same
sequential loop with a different probe). -/

/-- Accumulated state of the run loop: results produced by this run, the
items actually probed, the stop flag `wasStopped`, and the last written
cursor index and progress value. -/
structure LoopResult (ι ρ : Type) where
  newResults : List ρ
  probed : List ι
  wasStopped : Bool
  idx : Nat
  prog : ℚ
deriving DecidableEq

/-- The `for` loop of `runAllTests` / `startScan`.  At iteration `i` the
loop reads the live signal twice (`sig1 i` before the pause-wait, `sig2 i`
after it); observing `stopped` at either read breaks out with
`wasStopped` set.  Otherwise it writes the cursor index `i` and the
progress value `100 * (i + 1) / total`, awaits the probe, and appends the
result. -/
def runTestsLoop {ι ρ : Type} (probe : ι → ρ) (total : Nat) (sig1 sig2 : Nat → Bool) :
    List ι → Nat → LoopResult ι ρ → LoopResult ι ρ
  | [], _, acc => acc
  | it :: rest, i, acc =>
    if sig1 i then { acc with wasStopped := true }
    else if sig2 i then { acc with wasStopped := true }
    else
      runTestsLoop probe total sig1 sig2 rest (i + 1)
        { newResults := acc.newResults ++ [probe it]
          probed := acc.probed ++ [it]
          wasStopped := acc.wasStopped
          idx := i
          prog := (100 : ℚ) * ((i : ℚ) + 1) / (total : ℚ) }

/-- Observable state of the HTTP scan surface: the persisted result log
(`testResults`, kept in sync with storage by `saveResults`), the scan
state, the cursor index and the progress value. -/
structure RunnerState (ρ : Type) where
  testResults : List ρ
  testState : TestState
  currentTestIndex : Nat
  progress : ℚ
deriving DecidableEq

/-- Outcome of one call to `runAllTests`: the final surface state, the
items that were actually probed, and the user-facing error message when
the call was rejected before starting. -/
structure RunOutcome (ι ρ : Type) where
  state : RunnerState ρ
  probed : List ι
  errorMsg : Option String
deriving DecidableEq

/-- Worklist builder of the HTTP surface (`getProjectEndpoints`): the
stored endpoints whose `projectId` matches the selected project, in
storage order; empty when no project is selected. -/
def getProjectEndpoints (selectedProject : Option Project) (endpoints : List Endpoint) :
    List Endpoint :=
  match selectedProject with
  | none => []
  | some p => endpoints.filter (fun ep => ep.projectId == p.id)

/-- Model of `runAllTests` (TestRunner.tsx lines 321-391) on an already
built worklist.  An empty worklist is rejected with a user-facing error
and no state change.  Otherwise the surface enters `running` with cursor 0
and progress 0, the loop runs, results are appended to the (stale-closure)
result log, the state settles to `idle`, and progress is forced to `100`
only when the loop was not stopped. -/
def runAllTests {ι ρ : Type} (probe : ι → ρ) (sig1 sig2 : Nat → Bool)
    (worklist : List ι) (st : RunnerState ρ) : RunOutcome ι ρ :=
  if worklist.length = 0 then
    ⟨st, [], some "No endpoints found for selected project. Add endpoints first."⟩
  else
    let lr := runTestsLoop probe worklist.length sig1 sig2 worklist 0
      ⟨[], [], false, 0, 0⟩
    ⟨{ testResults := st.testResults ++ lr.newResults
       testState := TestState.idle
       currentTestIndex := lr.idx
       progress := if lr.wasStopped then lr.prog else 100 }, lr.probed, none⟩

/-- Observable state of the port scan surface. -/
structure PortScannerState (ρ : Type) where
  scanResults : List ρ
  scanState : TestState
  progress : ℚ
  currentPortIndex : Nat
deriving DecidableEq

/-- Outcome of one call to `startScan`. -/
structure PortScanOutcome (ι ρ : Type) where
  state : PortScannerState ρ
  probed : List ι
  errorMsg : Option String
deriving DecidableEq

/-- Model of `startScan` (PortScanner.tsx lines 243-305).  An empty port
list or an empty target is rejected with a user-facing error and no state
change.  Otherwise the result list is reset to empty before the first
probe, the loop runs, and the final result list holds exactly the results
of this run. -/
def startScan {ι ρ : Type} (probe : ι → ρ) (sig1 sig2 : Nat → Bool)
    (ports : List ι) (target : String) (st : PortScannerState ρ) : PortScanOutcome ι ρ :=
  if ports.length = 0 then ⟨st, [], some "No valid ports specified"⟩
  else if target = "" then ⟨st, [], some "Please specify a target host"⟩
  else
    let lr := runTestsLoop probe ports.length sig1 sig2 ports 0
      ⟨[], [], false, 0, 0⟩
    ⟨{ scanResults := lr.newResults
       scanState := TestState.idle
       progress := if lr.wasStopped then lr.prog else 100
       currentPortIndex := lr.idx }, lr.probed, none⟩

/-! ## Port scanner data (`PortScanner.tsx`) -/

/-- Status of one probed port; source union
`'open' | 'closed' | 'filtered' | 'scanning'` (the `scanning` value is a
transient UI placeholder, never produced by `scanPort`). -/
inductive PortStatus
  | «open»
  | closed
  | filtered
  | scanning
deriving DecidableEq

/-- Source interface `PortScanResult` of `PortScanner.tsx`. -/
structure PortScanResult where
  port : Nat
  status : PortStatus
  service : String
  banner : Option String
deriving DecidableEq

/-- The fixed well-known port table `commonPorts` of `PortScanner.tsx`. -/
def commonPorts : List (Nat × String) :=
  [(21, "FTP"), (22, "SSH"), (23, "Telnet"), (25, "SMTP"), (53, "DNS"),
   (80, "HTTP"), (110, "POP3"), (143, "IMAP"), (443, "HTTPS"), (993, "IMAPS"),
   (995, "POP3S"), (3306, "MySQL"), (3389, "RDP"), (5432, "PostgreSQL")]

/-- `getServiceName` (PortScanner.tsx lines 128-131): best-effort lookup in
the well-known table, defaulting to `"Unknown"`. -/
def getServiceName (port : Nat) : String :=
  match commonPorts.find? (fun p => p.1 == port) with
  | some p => p.2
  | none => "Unknown"

/-- Raw connection outcome observed by `scanPort`
(PortScanner.tsx lines 133-241): for a web port (80/443/8080/8443) the
HEAD-style `fetch` either resolves (carrying an opaque status, `0` under
`no-cors`) or throws; for every other port the WebSocket connection either
opens, errors, times out, or its constructor throws. -/
inductive PortRawOutcome
  | fetchSuccess (status : Nat)
  | fetchFailure
  | wsOpen
  | wsError
  | wsTimeout
  | wsCtorThrow
deriving DecidableEq

/-- The banner pool used on the WebSocket-constructor-throw path of
`scanPort`. -/
def bannerPool (port : Nat) : List String :=
  ["Service Ready", getServiceName port ++ " Server",
   "Connection Established", "Protocol Handshake OK"]

/-- Classification part of `scanPort` (PortScanner.tsx lines 133-241) as a
function of the raw connection outcome and the `Math.random()` draws it
consumes (`r1` for the first status draw, `r2` for the second status draw
of the constructor-throw path, `r3` for the banner index draw).  Each
failure path picks `filtered` or `closed` by comparing a fresh random draw
against a fixed threshold. -/
def scanPortClassify (port : Nat) (outcome : PortRawOutcome) (r1 r2 r3 : ℚ) :
    PortScanResult :=
  match outcome with
  | .fetchSuccess st =>
    { port := port
      status := PortStatus.«open»
      service := getServiceName port
      banner := some ("HTTP/" ++ (if st = 0 then "Unknown" else toString st) ++ " Service") }
  | .fetchFailure =>
    { port := port
      status := if r1 > 7/10 then PortStatus.filtered else PortStatus.closed
      service := getServiceName port
      banner := none }
  | .wsOpen =>
    { port := port
      status := PortStatus.«open»
      service := getServiceName port
      banner := some "WebSocket Service Ready" }
  | .wsError =>
    { port := port
      status := if r1 > 3/5 then PortStatus.filtered else PortStatus.closed
      service := getServiceName port
      banner := none }
  | .wsTimeout =>
    { port := port
      status := if r1 > 1/2 then PortStatus.filtered else PortStatus.closed
      service := getServiceName port
      banner := none }
  | .wsCtorThrow =>
    let isCommonPort := commonPorts.any (fun p => p.1 == port)
    let status :=
      if isCommonPort && r1 > 2/5 then PortStatus.«open»
      else if r2 > 7/10 then PortStatus.filtered
      else PortStatus.closed
    let bannerIdx := (Int.floor (r3 * 4)).toNat
    if status = PortStatus.«open» then
      { port := port, status := status, service := getServiceName port
        banner := some ((bannerPool port).getD bannerIdx "Service Ready") }
    else
      { port := port, status := status, service := getServiceName port, banner := none }

/-! ## Port worklist builder, range mode
(`getPortsToScan`, PortScanner.tsx lines 114-126). -/

/-- A JavaScript number as produced by `Number(...)` on a range-bound
string: NaN, an infinity, or the decimal rational `m / 10 ^ e`. -/
inductive JsNum
  | nan
  | inf
  | ninf
  | num (m : ℤ) (e : Nat)
deriving DecidableEq

/-- JavaScript subtraction on `JsNum`. -/
def jsSub : JsNum → JsNum → JsNum
  | .nan, _ => .nan
  | _, .nan => .nan
  | .inf, .inf => .nan
  | .inf, _ => .inf
  | .ninf, .ninf => .nan
  | .ninf, _ => .ninf
  | .num _ _, .inf => .ninf
  | .num _ _, .ninf => .inf
  | .num m₁ e₁, .num m₂ e₂ => .num (m₁ * (10 : ℤ) ^ e₂ - m₂ * (10 : ℤ) ^ e₁) (e₁ + e₂)

/-- JavaScript `x + 1` on `JsNum`. -/
def jsAddOne : JsNum → JsNum
  | .nan => .nan
  | .inf => .inf
  | .ninf => .ninf
  | .num m e => .num (m + (10 : ℤ) ^ e) e

/-- JavaScript `x + i` for a loop counter `i`, on `JsNum`. -/
def jsAddNat (x : JsNum) (i : Nat) : JsNum :=
  match x with
  | .nan => .nan
  | .inf => .inf
  | .ninf => .ninf
  | .num m e => .num (m + (i : ℤ) * (10 : ℤ) ^ e) e

/-- ECMAScript `ToLength`: NaN and negative values clamp to `0`, values
above `2 ^ 53 - 1` clamp to `2 ^ 53 - 1`, and the rest truncate to an
integer. -/
def toLength : JsNum → Nat
  | .nan => 0
  | .ninf => 0
  | .inf => 2 ^ 53 - 1
  | .num m e =>
    if m ≤ 0 then 0
    else min (m.fdiv ((10 : ℤ) ^ e)).toNat (2 ^ 53 - 1)

/-- All-digit check for a character list. -/
def allDigits (cs : List Char) : Bool :=
  cs.all Char.isDigit

/-- Decimal value of a digit list. -/
def digitsVal : List Char → Nat → Nat
  | [], acc => acc
  | c :: cs, acc => digitsVal cs (10 * acc + (c.toNat - '0'.toNat))

/-- Parse an unsigned decimal literal (`"12"`, `"12.5"`, `"12."`, `".5"`)
into a scaled-integer `JsNum`; anything else is NaN. -/
def parseUnsignedChars (cs : List Char) : JsNum :=
  match splitOnChar '.' cs with
  | [ip] =>
    if !ip.isEmpty && allDigits ip then .num (digitsVal ip 0 : ℤ) 0 else .nan
  | [ip, fp] =>
    if (!ip.isEmpty || !fp.isEmpty) && allDigits ip && allDigits fp then
      .num (digitsVal (ip ++ fp) 0 : ℤ) fp.length
    else .nan
  | _ => .nan

/-- Model of JavaScript `Number(s)` for the decimal fragment relevant to
range bounds: trimmed whitespace, empty string is `0`, optional sign,
`Infinity`, plain decimal literals; everything else is NaN. -/
def jsNumberChars (cs : List Char) : JsNum :=
  let t := trimChars cs
  if t.isEmpty then .num 0 0
  else
    match t with
    | '-' :: rest =>
      if rest = "Infinity".data then .ninf
      else
        match parseUnsignedChars rest with
        | .num m e => .num (-m) e
        | _ => .nan
    | '+' :: rest =>
      if rest = "Infinity".data then .inf else parseUnsignedChars rest
    | _ =>
      if t = "Infinity".data then .inf else parseUnsignedChars t

/-- The array length `end - start + 1` computed by the range branch of
`getPortsToScan`, after `ToLength` coercion: `portRange.split('-')` is
mapped through `Number`, a missing second bound standing for NaN. -/
def rangeComputedLength (portRange : String) : Nat :=
  let parts := splitOnChar '-' portRange.data
  let startNum := jsNumberChars (parts.getD 0 [])
  let endNum :=
    match parts with
    | _ :: e :: _ => jsNumberChars e
    | _ => JsNum.nan
  toLength (jsAddOne (jsSub endNum startNum))

/-- The `range` branch of `getPortsToScan` (PortScanner.tsx lines 118-120):
`Array.from({ length: end - start + 1 }, (_, i) => start + i)`.
`Array.from` raises a `RangeError` (modelled by `none`) when the coerced
length reaches the array length limit `2 ^ 32`; otherwise it yields the
arithmetic sequence starting at `start`. -/
def getPortsToScanRange (portRange : String) : Option (List JsNum) :=
  let parts := splitOnChar '-' portRange.data
  let startNum := jsNumberChars (parts.getD 0 [])
  let len := rangeComputedLength portRange
  if 2 ^ 32 ≤ len then none
  else some ((List.range len).map (fun i => jsAddNat startNum i))

/-! ## Run-loop event trace
(ordering of the writes inside one iteration of `runAllTests` /
`startScan`; TestRunner.tsx lines 363-372, PortScanner.tsx lines 286-293). -/

/-- One observable action of the run loop: a cursor write, a progress
write, the probe of item `i` starting or resolving, and the append of item
`i`'s result to the log. -/
inductive ScanEvent
  | setIndex (i : Nat)
  | setProgress (q : ℚ)
  | probeStart (i : Nat)
  | probeEnd (i : Nat)
  | appendResult (i : Nat)
deriving DecidableEq

/-- The events of one non-stopped iteration `i` of the run loop, in source
order: the loop writes the cursor `i` and the progress
`100 * (i + 1) / total` first, then awaits the probe, then appends the
result. -/
def iterEvents (total i : Nat) : List ScanEvent :=
  [ScanEvent.setIndex i,
   ScanEvent.setProgress ((100 : ℚ) * ((i : ℚ) + 1) / (total : ℚ)),
   ScanEvent.probeStart i,
   ScanEvent.probeEnd i,
   ScanEvent.appendResult i]

/-- Event trace of the run loop from iteration `start` with `fuel`
remaining iterations: an iteration whose signal checks observe `stopped`
emits nothing and ends the trace. -/
def loopEventsFrom (total : Nat) (sig1 sig2 : Nat → Bool) :
    Nat → Nat → List ScanEvent
  | 0, _ => []
  | fuel + 1, i =>
    if sig1 i then []
    else if sig2 i then []
    else iterEvents total i ++ loopEventsFrom total sig1 sig2 fuel (i + 1)

/-- Full event trace of a run over a worklist of length `total`. -/
def loopEvents (total : Nat) (sig1 sig2 : Nat → Bool) : List ScanEvent :=
  loopEventsFrom total sig1 sig2 total 0

/-- Effect of one event on the stored `(progress, cursor)` pair. -/
def applyEvent : ℚ × Nat → ScanEvent → ℚ × Nat
  | (_, idx), .setProgress q => (q, idx)
  | (p, _), .setIndex i => (p, i)
  | s, _ => s

/-- The stored `(progress, cursor)` pair at the moment a target event
occurs: fold the trace up to the first occurrence of the target. -/
def storedAt : List ScanEvent → ScanEvent → ℚ × Nat → ℚ × Nat
  | [], _, s => s
  | e :: rest, tgt, s =>
    if e = tgt then s
    else storedAt rest tgt (applyEvent s e)

/-! ## Session restore
(TestRunner.tsx lines 90-105 and PortScanner.tsx lines 73-89). -/

/-- JavaScript `x || d` on a numeric cursor value. -/
def jsOrNat (n d : Nat) : Nat := if n = 0 then d else n

/-- JavaScript `x || d` on a numeric progress value. -/
def jsOrRat (q d : ℚ) : ℚ := if q = 0 then d else q

/-- JavaScript `x || d` on a string value. -/
def jsOrStr (s d : String) : String := if s = "" then d else s

/-- Persisted snapshot of the HTTP scan surface
(session key `SCANNER_STATE`). -/
structure ScannerSession (ρ : Type) where
  testState : TestState
  currentTestIndex : Nat
  progress : ℚ
  testResults : List ρ
deriving DecidableEq

/-- Persisted snapshot of the port scan surface
(session key `PORT_SCANNER_STATE`); unlike the HTTP snapshot it also
stores the target host. -/
structure PortScannerSession (ρ : Type) where
  scanState : TestState
  currentPortIndex : Nat
  progress : ℚ
  target : String
  scanResults : List ρ
deriving DecidableEq

/-- Session restore of the HTTP surface (TestRunner.tsx lines 90-105): a
persisted `running`, `paused` or `stopped` state is rewritten to `idle`;
results are restored, and cursor and progress are restored through the
JavaScript `|| 0` default. -/
def restoreScannerSession {ρ : Type} (s : ScannerSession ρ) : ScannerSession ρ :=
  { testState :=
      if s.testState = TestState.running ∨ s.testState = TestState.paused ∨
          s.testState = TestState.stopped then
        TestState.idle
      else s.testState
    currentTestIndex := jsOrNat s.currentTestIndex 0
    progress := jsOrRat s.progress 0
    testResults := s.testResults }

/-- Session restore of the port surface (PortScanner.tsx lines 73-89):
like the HTTP surface, but the stored target is restored through
`savedState.target || '127.0.0.1'`. -/
def restorePortScannerSession {ρ : Type} (s : PortScannerSession ρ) :
    PortScannerSession ρ :=
  { scanState :=
      if s.scanState = TestState.running ∨ s.scanState = TestState.paused ∨
          s.scanState = TestState.stopped then
        TestState.idle
      else s.scanState
    currentPortIndex := jsOrNat s.currentPortIndex 0
    progress := jsOrRat s.progress 0
    target := jsOrStr s.target "127.0.0.1"
    scanResults := s.scanResults }

/-! ## Persistent storage (`storage.ts` keys used by the engine). -/

/-- The persisted collections behind `getStoredData` / `saveStoredData`:
the `endpoints`, `projects` and `testResults` keys. -/
structure StoredCollections where
  endpoints : List Endpoint
  projects : List Project
  testResults : List TestResult
deriving DecidableEq

/-- `clearResults` of the HTTP surface (TestRunner.tsx lines 436-440):
`saveStoredData('testResults', [])` replaces the whole persisted result
collection with the empty list, regardless of the selected project. -/
def clearResults (store : StoredCollections) : StoredCollections :=
  { store with testResults := [] }

/-! ## Run-loop lemmas -/

/-- Characterization of the run loop when no signal check ever observes
`stopped`: every item is probed, results are appended in worklist order,
the cursor ends at the index of the last item, and the progress value ends
at `100 * (i + length) / total`. -/
theorem runTestsLoop_no_stop {ι ρ : Type} (probe : ι → ρ) (total : Nat)
    (sig1 sig2 : Nat → Bool) (hsig : ∀ i, sig1 i = false ∧ sig2 i = false)
    (l : List ι) : ∀ (i : Nat) (acc : LoopResult ι ρ),
    runTestsLoop probe total sig1 sig2 l i acc =
      { newResults := acc.newResults ++ l.map probe
        probed := acc.probed ++ l
        wasStopped := acc.wasStopped
        idx := if l.isEmpty then acc.idx else i + l.length - 1
        prog := if l.isEmpty then acc.prog
                else (100 : ℚ) * ((i : ℚ) + (l.length : ℚ)) / (total : ℚ) } := by
  induction l with
  | nil => intro i acc; simp [runTestsLoop]
  | cons it rest ih =>
    intro i acc
    rw [runTestsLoop]
    simp only [(hsig i).1, (hsig i).2, Bool.false_eq_true, if_false, ih]
    rcases rest with _ | ⟨x, xs⟩
    · simp
    · simp only [List.isEmpty_cons, Bool.false_eq_true, if_false, List.map_cons,
        List.length_cons, List.append_assoc, List.cons_append, List.nil_append,
        LoopResult.mk.injEq, true_and, and_true]
      refine ⟨by omega, ?_⟩
      push_cast
      ring_nf

/-- Characterization of the run loop under a stop signal first observed at
iteration `k`: exactly the first `k - i` remaining items are probed and
the loop exits with `wasStopped` set. -/
theorem runTestsLoop_stop_at {ι ρ : Type} (probe : ι → ρ) (total k : Nat)
    (l : List ι) : ∀ (i : Nat) (acc : LoopResult ι ρ), i ≤ k → k < i + l.length →
    (runTestsLoop probe total (fun j => decide (k ≤ j)) (fun j => decide (k ≤ j))
        l i acc).newResults = acc.newResults ++ (l.take (k - i)).map probe ∧
    (runTestsLoop probe total (fun j => decide (k ≤ j)) (fun j => decide (k ≤ j))
        l i acc).probed = acc.probed ++ l.take (k - i) ∧
    (runTestsLoop probe total (fun j => decide (k ≤ j)) (fun j => decide (k ≤ j))
        l i acc).wasStopped = true := by
  induction l with
  | nil => intro i acc hik hk; simp at hk; omega
  | cons it rest ih =>
    intro i acc hik hk
    rw [runTestsLoop]
    by_cases hki : k ≤ i
    · have hkeq : k = i := Nat.le_antisymm hki hik
      subst hkeq
      simp
    · have hlt : i < k := Nat.lt_of_not_le hki
      have hdec : decide (k ≤ i) = false := by simp [hki]
      simp only [hdec, Bool.false_eq_true, if_false]
      have hstep := ih (i + 1)
        { newResults := acc.newResults ++ [probe it]
          probed := acc.probed ++ [it]
          wasStopped := acc.wasStopped
          idx := i
          prog := (100 : ℚ) * ((i : ℚ) + 1) / (total : ℚ) }
        (by omega) (by simp at hk ⊢; omega)
      have htake : k - i = (k - (i + 1)) + 1 := by omega
      rw [htake, List.take_succ_cons]
      simp only [List.map_cons] at hstep ⊢
      refine ⟨?_, ?_, hstep.2.2⟩
      · rw [hstep.1]; simp
      · rw [hstep.2.1]; simp

/-- The results produced by the run loop are exactly the probe applied to
the items it actually probed. -/
theorem runTestsLoop_results_eq_map {ι ρ : Type} (probe : ι → ρ) (total : Nat)
    (sig1 sig2 : Nat → Bool) (l : List ι) : ∀ (i : Nat) (acc : LoopResult ι ρ),
    acc.newResults = acc.probed.map probe →
    (runTestsLoop probe total sig1 sig2 l i acc).newResults =
      ((runTestsLoop probe total sig1 sig2 l i acc).probed).map probe := by
  induction l with
  | nil => intro i acc h; simpa [runTestsLoop] using h
  | cons it rest ih =>
    intro i acc h
    rw [runTestsLoop]
    by_cases h1 : sig1 i
    · simpa [h1] using h
    · by_cases h2 : sig2 i
      · simpa [h1, h2] using h
      · simp only [h1, h2, Bool.false_eq_true, if_false]
        exact ih (i + 1) _ (by simp [h])

/-! ## Claim theorems: the run loop -/

/-- Claim C1, amended.  For every non-empty worklist, after a run of
`runAllTests` in which no signal check observes `stopped`, the progress
value equals `100`, the state settles to `idle`, the persisted result log
has gained exactly `worklist.length` new entries in worklist order, every
item was probed — but the cursor index ends at `worklist.length - 1`, the
index written for the final item, not at `worklist.length`. -/
theorem runAllTests_completion {ι ρ : Type} (probe : ι → ρ) (sig1 sig2 : Nat → Bool)
    (worklist : List ι) (st : RunnerState ρ)
    (hne : worklist ≠ []) (hsig : ∀ i, sig1 i = false ∧ sig2 i = false) :
    (runAllTests probe sig1 sig2 worklist st).state.progress = 100 ∧
    (runAllTests probe sig1 sig2 worklist st).state.currentTestIndex
        = worklist.length - 1 ∧
    (runAllTests probe sig1 sig2 worklist st).state.testResults
        = st.testResults ++ worklist.map probe ∧
    (runAllTests probe sig1 sig2 worklist st).state.testState = TestState.idle ∧
    (runAllTests probe sig1 sig2 worklist st).probed = worklist := by
  have hlen : ¬ worklist.length = 0 := by
    simpa [List.length_eq_zero] using hne
  simp only [runAllTests, hlen, if_false,
    runTestsLoop_no_stop probe worklist.length sig1 sig2 hsig]
  have hemp : worklist.isEmpty = false := by
    cases worklist with
    | nil => simp at hne
    | cons a l => rfl
  simp [hemp]

/-- Claim C1 as stated fails on the code: after a completed one-item run
the cursor index is `0` (the loop writes index `i`, never `i + 1`), not
the worklist length `1`. -/
theorem runAllTests_cursor_cex :
    (runAllTests (fun n => n + 1) (fun _ => false) (fun _ => false) ([7] : List Nat)
      ⟨[], TestState.idle, 0, 0⟩).state.currentTestIndex
      ≠ ([7] : List Nat).length := by
  decide

/-- Claim C1 witness. -/
theorem runAllTests_completion_witness :
    ([7] : List Nat) ≠ [] ∧
    ((runAllTests (fun n => n + 1) (fun _ => false) (fun _ => false) ([7] : List Nat)
        ⟨[], TestState.idle, 0, 0⟩).state.progress = 100 ∧
      (runAllTests (fun n => n + 1) (fun _ => false) (fun _ => false) ([7] : List Nat)
        ⟨[], TestState.idle, 0, 0⟩).state.currentTestIndex = ([7] : List Nat).length - 1 ∧
      (runAllTests (fun n => n + 1) (fun _ => false) (fun _ => false) ([7] : List Nat)
        ⟨[], TestState.idle, 0, 0⟩).state.testResults = [] ++ ([7] : List Nat).map (fun n => n + 1) ∧
      (runAllTests (fun n => n + 1) (fun _ => false) (fun _ => false) ([7] : List Nat)
        ⟨[], TestState.idle, 0, 0⟩).state.testState = TestState.idle ∧
      (runAllTests (fun n => n + 1) (fun _ => false) (fun _ => false) ([7] : List Nat)
        ⟨[], TestState.idle, 0, 0⟩).probed = [7]) :=
  ⟨by decide,
    runAllTests_completion (fun n => n + 1) (fun _ => false) (fun _ => false) [7]
      ⟨[], TestState.idle, 0, 0⟩ (by decide) (fun _ => ⟨rfl, rfl⟩)⟩

/-- Claim C5, confirmed.  If the stop signal is first observed at the
check before item `k + 1` begins (items `0 ≤ i < k` having completed), the
loop exits without probing any further item: exactly the first `k` items
were probed, the result log gained exactly `k` new entries from this run,
and the state settles to `idle`. -/
theorem runAllTests_stop_after_k {ι ρ : Type} (probe : ι → ρ) (worklist : List ι)
    (st : RunnerState ρ) (k : Nat) (hk : k < worklist.length) :
    (runAllTests probe (fun j => decide (k ≤ j)) (fun j => decide (k ≤ j))
        worklist st).state.testResults
      = st.testResults ++ (worklist.take k).map probe ∧
    (runAllTests probe (fun j => decide (k ≤ j)) (fun j => decide (k ≤ j))
        worklist st).probed = worklist.take k ∧
    (runAllTests probe (fun j => decide (k ≤ j)) (fun j => decide (k ≤ j))
        worklist st).state.testResults.length = st.testResults.length + k ∧
    (runAllTests probe (fun j => decide (k ≤ j)) (fun j => decide (k ≤ j))
        worklist st).state.testState = TestState.idle := by
  have hlen : ¬ worklist.length = 0 := by omega
  have hloop := runTestsLoop_stop_at probe worklist.length k worklist 0
    ⟨[], [], false, 0, 0⟩ (Nat.zero_le k) (by omega)
  simp only [Nat.sub_zero] at hloop
  simp only [runAllTests, hlen, if_false]
  refine ⟨?_, ?_, ?_, ?_⟩
  · rw [hloop.1]; simp
  · rw [hloop.2.1]; simp
  · rw [hloop.1]
    simp only [List.nil_append, List.length_append, List.length_map, List.length_take]
    omega
  · trivial

/-- Claim C5 witness. -/
theorem runAllTests_stop_after_k_witness :
    (1 : Nat) < ([3, 4] : List Nat).length ∧
    ((runAllTests (fun n => n * 2) (fun j => decide (1 ≤ j)) (fun j => decide (1 ≤ j))
        ([3, 4] : List Nat) ⟨[9], TestState.idle, 0, 0⟩).state.testResults
      = [9] ++ (([3, 4] : List Nat).take 1).map (fun n => n * 2) ∧
      (runAllTests (fun n => n * 2) (fun j => decide (1 ≤ j)) (fun j => decide (1 ≤ j))
        ([3, 4] : List Nat) ⟨[9], TestState.idle, 0, 0⟩).probed = ([3, 4] : List Nat).take 1 ∧
      (runAllTests (fun n => n * 2) (fun j => decide (1 ≤ j)) (fun j => decide (1 ≤ j))
        ([3, 4] : List Nat) ⟨[9], TestState.idle, 0, 0⟩).state.testResults.length
        = ([9] : List Nat).length + 1 ∧
      (runAllTests (fun n => n * 2) (fun j => decide (1 ≤ j)) (fun j => decide (1 ≤ j))
        ([3, 4] : List Nat) ⟨[9], TestState.idle, 0, 0⟩).state.testState = TestState.idle) :=
  ⟨by decide,
    runAllTests_stop_after_k (fun n => n * 2) [3, 4] ⟨[9], TestState.idle, 0, 0⟩ 1 (by decide)⟩

/-- Claim C8, confirmed.  A configuration whose worklist is empty (no
endpoint of the stored set matches the selected project, or an empty port
list) is rejected with a user-facing error message: the surface state is
returned unchanged and no probe is invoked. -/
theorem start_empty_worklist_noop {ι ρ σ : Type} (probe : Endpoint → ρ)
    (probeP : ι → σ) (sig1 sig2 sigA sigB : Nat → Bool)
    (sel : Option Project) (endpoints : List Endpoint)
    (st : RunnerState ρ) (stP : PortScannerState σ) (target : String)
    (hw : getProjectEndpoints sel endpoints = []) :
    runAllTests probe sig1 sig2 (getProjectEndpoints sel endpoints) st =
      ⟨st, [], some "No endpoints found for selected project. Add endpoints first."⟩ ∧
    startScan probeP sigA sigB ([] : List ι) target stP =
      ⟨stP, [], some "No valid ports specified"⟩ := by
  rw [hw]
  exact ⟨rfl, rfl⟩

/-- Claim C8 witness. -/
theorem start_empty_worklist_noop_witness :
    getProjectEndpoints none [] = [] ∧
    (runAllTests (fun _ => (0 : Nat)) (fun _ => false) (fun _ => false)
        (getProjectEndpoints none []) ⟨[], TestState.idle, 0, 0⟩ =
      ⟨⟨[], TestState.idle, 0, 0⟩, [],
        some "No endpoints found for selected project. Add endpoints first."⟩ ∧
      startScan (fun n : Nat => n) (fun _ => false) (fun _ => false) ([] : List Nat) "host"
        ⟨[], TestState.idle, 0, 0⟩ =
      ⟨⟨[], TestState.idle, 0, 0⟩, [], some "No valid ports specified"⟩) :=
  ⟨rfl,
    start_empty_worklist_noop (fun _ => (0 : Nat)) (fun n : Nat => n)
      (fun _ => false) (fun _ => false) (fun _ => false) (fun _ => false)
      none [] ⟨[], TestState.idle, 0, 0⟩ ⟨[], TestState.idle, 0, 0⟩ "host" rfl⟩

/-- Claim C10, confirmed.  `startScan` resets the port result list before
the first probe, so after any run (stopped or completed) the port result
list holds exactly the results of the items this run probed and nothing
from any earlier run; `runAllTests` instead appends this run's results to
the pre-existing log. -/
theorem startScan_resets_results {ι κ ρ σ : Type} (probeP : ι → σ)
    (probe : κ → ρ) (sigA sigB sig1 sig2 : Nat → Bool)
    (ports : List ι) (target : String) (stP : PortScannerState σ)
    (worklist : List κ) (st : RunnerState ρ)
    (hp : ports ≠ []) (ht : target ≠ "") :
    (startScan probeP sigA sigB ports target stP).state.scanResults =
      ((startScan probeP sigA sigB ports target stP).probed).map probeP ∧
    (runAllTests probe sig1 sig2 worklist st).state.testResults =
      st.testResults ++ ((runAllTests probe sig1 sig2 worklist st).probed).map probe := by
  constructor
  · have hlen : ¬ ports.length = 0 := by
      simpa [List.length_eq_zero] using hp
    simp only [startScan, hlen, if_false, ht]
    exact runTestsLoop_results_eq_map probeP ports.length sigA sigB ports 0 _ rfl
  · by_cases hw : worklist.length = 0
    · simp [runAllTests, hw]
    · simp only [runAllTests, hw, if_false]
      rw [runTestsLoop_results_eq_map probe worklist.length sig1 sig2 worklist 0 _ rfl]

/-- Claim C10 witness. -/
theorem startScan_resets_results_witness :
    ([80] : List Nat) ≠ [] ∧ ("127.0.0.1" : String) ≠ "" ∧
    ((startScan (fun n => n) (fun _ => false) (fun _ => false) ([80] : List Nat)
        "127.0.0.1" ⟨[999], TestState.idle, 0, 0⟩).state.scanResults =
      ((startScan (fun n => n) (fun _ => false) (fun _ => false) ([80] : List Nat)
        "127.0.0.1" ⟨[999], TestState.idle, 0, 0⟩).probed).map (fun n => n) ∧
      (runAllTests (fun n => n + 1) (fun _ => false) (fun _ => false) ([5] : List Nat)
        ⟨[42], TestState.idle, 0, 0⟩).state.testResults =
      [42] ++ ((runAllTests (fun n => n + 1) (fun _ => false) (fun _ => false) ([5] : List Nat)
        ⟨[42], TestState.idle, 0, 0⟩).probed).map (fun n => n + 1)) :=
  ⟨by decide, by decide,
    startScan_resets_results (fun n => n) (fun n => n + 1)
      (fun _ => false) (fun _ => false) (fun _ => false) (fun _ => false)
      [80] "127.0.0.1" ⟨[999], TestState.idle, 0, 0⟩ [5] ⟨[42], TestState.idle, 0, 0⟩
      (by decide) (by decide)⟩

/-! ## Trace lemmas for the progress/cursor write ordering -/

/-- Folding `storedAt` past a prefix that does not contain the target. -/
theorem storedAt_append_not_mem (pre post : List ScanEvent) (tgt : ScanEvent) :
    ∀ s : ℚ × Nat, tgt ∉ pre →
    storedAt (pre ++ post) tgt s = storedAt post tgt (pre.foldl applyEvent s) := by
  induction pre with
  | nil => intro s _; simp [List.foldl]
  | cons e rest ih =>
    intro s h
    have hne : ¬ e = tgt := fun hco => h (hco ▸ List.mem_cons_self e rest)
    rw [List.cons_append, storedAt, if_neg hne, List.foldl_cons]
    exact ih _ (fun hm => h (List.mem_cons_of_mem e hm))

/-- Inside the trace of a run that has not observed `stopped` up to item
`i`, the stored `(progress, cursor)` pair both at the start and at the
completion of item `i`'s probe equals `(100 * (i + 1) / total, i)`: the
write happens before the probe is awaited and is unchanged when it
resolves. -/
theorem storedAt_loopEventsFrom (total : Nat) (sig1 sig2 : Nat → Bool) :
    ∀ (fuel start i : Nat) (s : ℚ × Nat), start ≤ i → i < start + fuel →
    (∀ j, start ≤ j → j ≤ i → sig1 j = false ∧ sig2 j = false) →
    storedAt (loopEventsFrom total sig1 sig2 fuel start) (ScanEvent.probeStart i) s
        = ((100 : ℚ) * ((i : ℚ) + 1) / (total : ℚ), i) ∧
    storedAt (loopEventsFrom total sig1 sig2 fuel start) (ScanEvent.probeEnd i) s
        = ((100 : ℚ) * ((i : ℚ) + 1) / (total : ℚ), i) := by
  intro fuel
  induction fuel with
  | zero => intro start i s h1 h2 _; omega
  | succ n ih =>
    intro start i s h1 h2 hsig
    have hs := hsig start (Nat.le_refl start) h1
    rw [loopEventsFrom]
    simp only [hs.1, hs.2, Bool.false_eq_true, if_false]
    by_cases hi : i = start
    · subst hi
      rcases s with ⟨p, idx⟩
      constructor <;>
        simp [iterEvents, storedAt, applyEvent]
    · have hlt : start < i := Nat.lt_of_le_of_ne h1 (fun h => hi h.symm)
      have hmem1 : ScanEvent.probeStart i ∉ iterEvents total start := by
        simp [iterEvents]
        omega
      have hmem2 : ScanEvent.probeEnd i ∉ iterEvents total start := by
        simp [iterEvents]
        omega
      rw [storedAt_append_not_mem _ _ _ s hmem1, storedAt_append_not_mem _ _ _ s hmem2]
      exact ih (start + 1) i _ (by omega) (by omega)
        (fun j hj1 hj2 => hsig j (by omega) hj2)

/-! ## Claim theorems: progress/cursor invariant (C2) -/

/-- Claim C2, amended.  For every item `i` processed by a run over a
worklist of length `total` (no stop observed up to item `i`), the stored
progress at the moment item `i`'s probe-and-classify step completes is the
exact, unrounded value `100 * (i + 1) / total` while the stored cursor is
`i` (not `i + 1`), and this very pair is already stored when item `i`'s
probe starts: the loop writes cursor and progress before awaiting the
probe, not after the item completes. -/
theorem progress_written_before_probe (total : Nat) (sig1 sig2 : Nat → Bool)
    (i : Nat) (hi : i < total)
    (hsig : ∀ j, j ≤ i → sig1 j = false ∧ sig2 j = false) :
    storedAt (loopEvents total sig1 sig2) (ScanEvent.probeStart i) (0, 0)
        = ((100 : ℚ) * ((i : ℚ) + 1) / (total : ℚ), i) ∧
    storedAt (loopEvents total sig1 sig2) (ScanEvent.probeEnd i) (0, 0)
        = ((100 : ℚ) * ((i : ℚ) + 1) / (total : ℚ), i) :=
  storedAt_loopEventsFrom total sig1 sig2 total 0 i (0, 0) (Nat.zero_le i)
    (by omega) (fun j _ hj => hsig j hj)

/-- Claim C2 as stated fails on the code: in a two-item run, at the moment
item `0` completes the stored progress is `50` while
`round(100 * cursor / length) = round(100 * 0 / 2) = 0`; the progress
value for an item is also written before the item's probe, not at its
completion. -/
theorem progress_round_cex :
    (storedAt (loopEvents 2 (fun _ => false) (fun _ => false))
        (ScanEvent.probeEnd 0) (0, 0)).1
      ≠ ((round ((100 : ℚ) *
          (((storedAt (loopEvents 2 (fun _ => false) (fun _ => false))
              (ScanEvent.probeEnd 0) (0, 0)).2 : ℚ)) / 2) : ℤ) : ℚ) := by
  have h : storedAt (loopEvents 2 (fun _ => false) (fun _ => false))
      (ScanEvent.probeEnd 0) (0, 0)
      = ((100 : ℚ) * (((0 : Nat) : ℚ) + 1) / (((2 : Nat)) : ℚ), (0 : Nat)) := rfl
  rw [h]
  push_cast
  norm_num

/-- Claim C2 witness. -/
theorem progress_written_before_probe_witness :
    (0 : Nat) < 2 ∧
    (storedAt (loopEvents 2 (fun _ => false) (fun _ => false))
        (ScanEvent.probeStart 0) (0, 0)
        = ((100 : ℚ) * (((0 : Nat) : ℚ) + 1) / ((2 : Nat) : ℚ), (0 : Nat)) ∧
      storedAt (loopEvents 2 (fun _ => false) (fun _ => false))
        (ScanEvent.probeEnd 0) (0, 0)
        = ((100 : ℚ) * (((0 : Nat) : ℚ) + 1) / ((2 : Nat) : ℚ), (0 : Nat))) :=
  ⟨by decide,
    progress_written_before_probe 2 (fun _ => false) (fun _ => false) 0 (by decide)
      (fun _ _ => ⟨rfl, rfl⟩)⟩

/-! ## Claim theorems: port classifier determinism (C3) -/

/-- Claim C3, amended.  The port and service fields of a `scanPort` result
are deterministic — the service name is always the exact well-known table
lookup for the port, whatever the random draws — and a successful
connection (resolved fetch for a web port, opened WebSocket otherwise) is
deterministically classified `open`.  But the status of a failed probe is
not a function of the raw outcome alone: it depends on the random draw
(see the counterexample). -/
theorem scanPortClassify_deterministic_fields (port : Nat)
    (outcome : PortRawOutcome) (r1 r2 r3 : ℚ) (st : Nat) :
    (scanPortClassify port outcome r1 r2 r3).service = getServiceName port ∧
    (scanPortClassify port outcome r1 r2 r3).port = port ∧
    (scanPortClassify port (PortRawOutcome.fetchSuccess st) r1 r2 r3).status
        = PortStatus.«open» ∧
    (scanPortClassify port PortRawOutcome.wsOpen r1 r2 r3).status
        = PortStatus.«open» := by
  refine ⟨?_, ?_, rfl, rfl⟩ <;>
    cases outcome <;>
      simp only [scanPortClassify] <;> split_ifs <;> simp

/-- Claim C3 as stated fails on the code: the same raw connection outcome
(a failed fetch on web port 80) is classified `filtered` under one random
draw and `closed` under another. -/
theorem scanPortClassify_random_cex :
    (scanPortClassify 80 PortRawOutcome.fetchFailure (4/5) 0 0).status ≠
    (scanPortClassify 80 PortRawOutcome.fetchFailure (1/2) 0 0).status := by
  have h1 : (scanPortClassify 80 PortRawOutcome.fetchFailure (4/5) 0 0).status
      = PortStatus.filtered := by
    simp only [scanPortClassify]
    norm_num
  have h2 : (scanPortClassify 80 PortRawOutcome.fetchFailure (1/2) 0 0).status
      = PortStatus.closed := by
    simp only [scanPortClassify]
    norm_num
  rw [h1, h2]
  simp

/-! ## Claim theorems: session restore (C4) -/

/-- `x || 0` is the identity on a stored cursor. -/
theorem jsOrNat_zero (n : Nat) : jsOrNat n 0 = n := by
  unfold jsOrNat; split <;> omega

/-- `x || 0` is the identity on a stored progress value. -/
theorem jsOrRat_zero (q : ℚ) : jsOrRat q 0 = q := by
  unfold jsOrRat; split
  · simpa using (by assumption : q = 0).symm
  · rfl

/-- Claim C4, amended.  Restoring a persisted snapshot whose state is
`running`, `paused` or `stopped` yields state `idle` with the snapshot's
cursor index, progress and accumulated results preserved unchanged, on
both surfaces.  A snapshot whose state is `idle` keeps its state, cursor,
progress and results; the HTTP snapshot is restored exactly as-is, but on
the port surface the stored target is restored through the
`target || '127.0.0.1'` default, so an idle port snapshot with an empty
stored target is not restored verbatim. -/
theorem restore_session_spec {ρ σ : Type} (s : ScannerSession ρ)
    (p : PortScannerSession σ) :
    ((s.testState = TestState.running ∨ s.testState = TestState.paused ∨
        s.testState = TestState.stopped) →
      restoreScannerSession s = { s with testState := TestState.idle }) ∧
    (s.testState = TestState.idle → restoreScannerSession s = s) ∧
    ((p.scanState = TestState.running ∨ p.scanState = TestState.paused ∨
        p.scanState = TestState.stopped) →
      restorePortScannerSession p =
        { p with scanState := TestState.idle
                 target := jsOrStr p.target "127.0.0.1" }) ∧
    (p.scanState = TestState.idle →
      restorePortScannerSession p = { p with target := jsOrStr p.target "127.0.0.1" }) := by
  refine ⟨?_, ?_, ?_, ?_⟩
  · intro h
    simp [restoreScannerSession, h, jsOrNat_zero, jsOrRat_zero]
  · intro h
    have hno : ¬ (s.testState = TestState.running ∨ s.testState = TestState.paused ∨
        s.testState = TestState.stopped) := by
      rw [h]; simp
    simp [restoreScannerSession, hno, jsOrNat_zero, jsOrRat_zero]
  · intro h
    simp [restorePortScannerSession, h, jsOrNat_zero, jsOrRat_zero]
  · intro h
    have hno : ¬ (p.scanState = TestState.running ∨ p.scanState = TestState.paused ∨
        p.scanState = TestState.stopped) := by
      rw [h]; simp
    simp [restorePortScannerSession, hno, jsOrNat_zero, jsOrRat_zero]

/-- Claim C4 as stated fails on the code: an idle port-surface snapshot
whose stored target is the empty string is not restored as-is — the
restore path rewrites the target to the default `127.0.0.1`. -/
theorem restore_port_target_cex :
    (restorePortScannerSession
        (⟨TestState.idle, 3, 0, "", [()]⟩ : PortScannerSession Unit)).target ≠
      (⟨TestState.idle, 3, 0, "", [()]⟩ : PortScannerSession Unit).target := by
  decide

/-- Claim C4 witness. -/
theorem restore_session_spec_witness :
    restoreScannerSession (⟨TestState.running, 1, 0, [()]⟩ : ScannerSession Unit)
      = { (⟨TestState.running, 1, 0, [()]⟩ : ScannerSession Unit) with
          testState := TestState.idle } ∧
    restorePortScannerSession (⟨TestState.idle, 2, 0, "h", [()]⟩ : PortScannerSession Unit)
      = { (⟨TestState.idle, 2, 0, "h", [()]⟩ : PortScannerSession Unit) with
          target := jsOrStr "h" "127.0.0.1" } :=
  ⟨(restore_session_spec (⟨TestState.running, 1, 0, [()]⟩ : ScannerSession Unit)
      (⟨TestState.idle, 2, 0, "h", [()]⟩ : PortScannerSession Unit)).1 (Or.inl rfl),
    (restore_session_spec (⟨TestState.running, 1, 0, [()]⟩ : ScannerSession Unit)
      (⟨TestState.idle, 2, 0, "h", [()]⟩ : PortScannerSession Unit)).2.2.2 rfl⟩

/-! ## Claim theorems: port range worklist (C6) -/

/-- Claim C6 as stated fails on the code: the range builder is not
throw-free for every range string — a string whose computed length
`end - start + 1` reaches the array length limit `2 ^ 32` makes
`Array.from` raise a `RangeError` (modelled by `none`). -/
theorem getPortsToScanRange_throw_cex :
    getPortsToScanRange "1-5000000000" = none := by
  decide

/-- Claim C6, amended.  In range mode the builder maps `"10-12"` to
exactly `[10, 11, 12]` and the reversed `"12-10"` to the empty sequence,
and it returns a sequence without throwing for every range string whose
computed `end - start + 1` length stays below the JavaScript array length
limit `2 ^ 32` — in particular for every invalid or reversed range, whose
length coerces to `0`.  Only a string whose computed length reaches
`2 ^ 32` throws. -/
theorem getPortsToScanRange_spec :
    getPortsToScanRange "10-12"
        = some [JsNum.num 10 0, JsNum.num 11 0, JsNum.num 12 0] ∧
    getPortsToScanRange "12-10" = some [] ∧
    ∀ s : String, getPortsToScanRange s = none → 2 ^ 32 ≤ rangeComputedLength s := by
  refine ⟨by decide, by decide, fun s h => ?_⟩
  by_cases hc : 2 ^ 32 ≤ rangeComputedLength s
  · exact hc
  · simp only [getPortsToScanRange, if_neg hc] at h
    exact Option.noConfusion h

/-- Claim C6 witness. -/
theorem getPortsToScanRange_spec_witness :
    getPortsToScanRange "1-6000000000" = none ∧
    2 ^ 32 ≤ rangeComputedLength "1-6000000000" :=
  ⟨by decide, getPortsToScanRange_spec.2.2 "1-6000000000" (by decide)⟩

/-! ## Claim theorems: HTTP header findings (C7) -/

/-- A prefix of a prefix: dropping a suffix of the needle preserves the
prefix test. -/
theorem isPrefixList_append_left (xs ys zs : List Char) :
    isPrefixList (xs ++ ys) zs = true → isPrefixList xs zs = true := by
  induction xs generalizing zs with
  | nil => intro _; rfl
  | cons c cs ih =>
    intro h
    cases zs with
    | nil => simp [isPrefixList] at h
    | cons d ds =>
      simp only [List.cons_append, isPrefixList, Bool.and_eq_true] at h ⊢
      exact ⟨h.1, ih ds h.2⟩

/-- A URL starting with `https://` also starts with `https:`, the prefix
the classifier actually tests. -/
theorem strStartsWith_https (s : String) (h : strStartsWith s "https://" = true) :
    strStartsWith s "https:" = true := by
  have hdata : ("https://" : String).data
      = ("https:" : String).data ++ ['/', '/'] := rfl
  unfold strStartsWith at h ⊢
  rw [hdata] at h
  exact isPrefixList_append_left _ _ _ h

/-- Claim C7, amended.  For a response on an `https://` URL that lacks all
four monitored security headers, if the status-code check and the content
check pass, the verdict is `pass`; and provided the response additionally
avoids the two other advisory rules (status below 500 and no database
error signature in the body) the findings list has length exactly `4`.
Without that proviso the verdict is still `pass` but the findings list can
be longer (see the counterexample). -/
theorem runSingleTestClassify_four_findings (ep : Endpoint) (cfg : TestConfig)
    (resp : HttpResponse)
    (hurl : strStartsWith ep.url "https://" = true)
    (h1 : resp.hasXContentTypeOptions = false)
    (h2 : resp.hasXFrameOptions = false)
    (h3 : resp.hasXXssProtection = false)
    (h4 : resp.hasStrictTransportSecurity = false)
    (hstatus : match ep.expectedStatusCode with
               | some e => e = 0 ∨ resp.status = e
               | none => True)
    (hcontent : cfg.checkContent = false ∨ cfg.expectedContent = "" ∨
                strContains resp.body cfg.expectedContent = true)
    (h500 : resp.status < 500)
    (hsql1 : strContains resp.body "mysql_" = false)
    (hsql2 : strContains resp.body "ORA-" = false)
    (hsql3 : strContains resp.body "SQLException" = false) :
    (runSingleTestClassify ep cfg resp).1 = TestStatus.pass ∧
    (runSingleTestClassify ep cfg resp).2.length = 4 := by
  have hurl6 : strStartsWith ep.url "https:" = true := strStartsWith_https _ hurl
  have hcprop : ¬ ((cfg.checkContent = true ∧ ¬ cfg.expectedContent = "") ∧
      strContains resp.body cfg.expectedContent = false) := by
    rcases hcontent with h | h | h <;> simp [h]
  have h500x : ¬ (500 ≤ resp.status) := Nat.not_le.mpr h500
  have hsql : (strContains resp.body "mysql_" || strContains resp.body "ORA-" ||
      strContains resp.body "SQLException") = false := by
    simp [hsql1, hsql2, hsql3]
  cases hexp : ep.expectedStatusCode with
  | none =>
    simp [runSingleTestClassify, hexp, hcprop, h1, h2, h3, h4, hurl6, h500x, hsql]
  | some e =>
    rw [hexp] at hstatus
    have hstatus2 : e = 0 ∨ resp.status = e := hstatus
    have hc0prop : ¬ (¬ e = 0 ∧ ¬ resp.status = e) := by
      rcases hstatus2 with h | h <;> simp [h]
    simp [runSingleTestClassify, hexp, hc0prop, hcprop, h1, h2, h3, h4, hurl6, h500x, hsql]

/-- Claim C7 as stated fails on the code: an `https://` endpoint with
`expectedStatusCode = 500` receiving a 500 response passes the status and
content checks and lacks all four monitored headers, yet the verdict
`pass` comes with 5 findings (the four header findings plus the
server-error advisory), not exactly 4. -/
theorem runSingleTestClassify_findings_cex :
    (runSingleTestClassify
        ⟨"e1", "n", "https://example.com/a", "GET", "p1", some 500⟩
        ⟨"p1", "", false⟩
        ⟨500, false, false, false, false, ""⟩).1 = TestStatus.pass ∧
    (runSingleTestClassify
        ⟨"e1", "n", "https://example.com/a", "GET", "p1", some 500⟩
        ⟨"p1", "", false⟩
        ⟨500, false, false, false, false, ""⟩).2.length = 5 ∧
    (runSingleTestClassify
        ⟨"e1", "n", "https://example.com/a", "GET", "p1", some 500⟩
        ⟨"p1", "", false⟩
        ⟨500, false, false, false, false, ""⟩).2.length ≠ 4 := by
  refine ⟨by decide, by decide, by decide⟩

/-- Claim C7 witness. -/
theorem runSingleTestClassify_four_findings_witness :
    strStartsWith "https://ok.example/x" "https://" = true ∧
    ((runSingleTestClassify ⟨"id", "n", "https://ok.example/x", "GET", "p", none⟩
        ⟨"p", "", false⟩ ⟨200, false, false, false, false, "hello"⟩).1
      = TestStatus.pass ∧
      (runSingleTestClassify ⟨"id", "n", "https://ok.example/x", "GET", "p", none⟩
        ⟨"p", "", false⟩ ⟨200, false, false, false, false, "hello"⟩).2.length = 4) :=
  ⟨by decide,
    runSingleTestClassify_four_findings
      ⟨"id", "n", "https://ok.example/x", "GET", "p", none⟩
      ⟨"p", "", false⟩ ⟨200, false, false, false, false, "hello"⟩
      (by decide) rfl rfl rfl rfl trivial (Or.inl rfl)
      (by decide) (by decide) (by decide) (by decide)⟩

/-! ## Claim theorems: clearing the result log (C9) -/

/-- Claim C9, confirmed.  `clearResults` on the HTTP surface replaces the
whole persisted `testResults` collection with the empty list: afterwards
no stored result remains for any project (not only the selected one),
while the `endpoints` and `projects` collections are untouched. -/
theorem clearResults_clears_all (store : StoredCollections) :
    (clearResults store).testResults = [] ∧
    (∀ pid : String,
      ((clearResults store).testResults.filter (fun r => r.projectId == pid)) = []) ∧
    (clearResults store).endpoints = store.endpoints ∧
    (clearResults store).projects = store.projects :=
  ⟨rfl, fun _ => rfl, rfl, rfl⟩

end TestPalette
